import Mathlib

/-!
Verification of the remcli P2P daemon core (packages/remcli-cli/src/daemon/p2p).

The daemon's in-memory store (`p2pStore.ts`), event router (`p2pEventRouter.ts`),
socket handlers (`p2pSocketHandlers.ts`), REST routes (`p2pRestRoutes.ts`) and the
socket-handshake middleware (`p2pServer.ts`) are shallowly embedded below.

Modelling conventions:
* A JavaScript `Map<string, V>` is an association list with pairwise-distinct keys,
  in insertion order.  `mapGet` is `Map.get`, `mapSet` is `Map.set` (replace in
  place when the key is present, append otherwise), `mapDelete` is `Map.delete`
  (a real `Map` holds at most one entry per key, so removing every entry with the
  key coincides with removing the entry).
* `Date.now()` is passed in explicitly as a `now : Nat` argument and
  `crypto.randomUUID()` as a `freshId : String` argument; the TypeScript methods
  that mutate the store become functions returning the result together with the
  new store.
-/

namespace Remcli

/-- `Map.get`: the value at the first (in a real `Map`: the only) entry with the key. -/
def mapGet (k : String) : List (String × α) → Option α
  | [] => none
  | (k', v) :: rest => if k' = k then some v else mapGet k rest

/-- `Map.set`: replace the entry with the key in place, or append a fresh entry. -/
def mapSet (k : String) (v : α) : List (String × α) → List (String × α)
  | [] => [(k, v)]
  | (k', v') :: rest => if k' = k then (k, v) :: rest else (k', v') :: mapSet k v rest

/-- `Map.delete`: remove the entry with the key (see the conventions above). -/
def mapDelete (k : String) : List (String × α) → List (String × α)
  | [] => []
  | (k', v') :: rest => if k' = k then mapDelete k rest else (k', v') :: mapDelete k rest

@[simp] theorem mapGet_nil (k : String) : mapGet k ([] : List (String × α)) = none := rfl

@[simp] theorem mapGet_cons (k k' : String) (v : α) (rest : List (String × α)) :
    mapGet k ((k', v) :: rest) = if k' = k then some v else mapGet k rest := rfl

theorem mapGet_mapSet_self (k : String) (v : α) (m : List (String × α)) :
    mapGet k (mapSet k v m) = some v := by
  induction m with
  | nil => simp [mapSet]
  | cons p rest ih =>
      obtain ⟨k', v'⟩ := p
      by_cases h : k' = k
      · simp [mapSet, h]
      · simp [mapSet, h, ih]

theorem mapGet_mapSet_ne (k j : String) (v : α) (m : List (String × α)) (h : j ≠ k) :
    mapGet j (mapSet k v m) = mapGet j m := by
  induction m with
  | nil => simp [mapSet, mapGet, Ne.symm h]
  | cons p rest ih =>
      obtain ⟨k', v'⟩ := p
      by_cases hk : k' = k
      · subst hk
        simp [mapSet, mapGet, Ne.symm h]
      · simp [mapSet, hk, mapGet, ih]

theorem mapGet_mapDelete_self (k : String) (m : List (String × α)) :
    mapGet k (mapDelete k m) = none := by
  induction m with
  | nil => rfl
  | cons p rest ih =>
      obtain ⟨k', v'⟩ := p
      by_cases h : k' = k
      · simp [mapDelete, h, ih]
      · simp [mapDelete, h, mapGet, ih]

theorem mapGet_mapDelete_ne (k j : String) (m : List (String × α)) (h : j ≠ k) :
    mapGet j (mapDelete k m) = mapGet j m := by
  induction m with
  | nil => rfl
  | cons p rest ih =>
      obtain ⟨k', v'⟩ := p
      by_cases hk : k' = k
      · subst hk
        simp [mapDelete, mapGet, Ne.symm h, ih]
      · simp [mapDelete, hk, mapGet, ih]

theorem mapGet_eq_none_iff (k : String) (m : List (String × α)) :
    mapGet k m = none ↔ k ∉ m.map Prod.fst := by
  induction m with
  | nil => simp
  | cons p rest ih =>
      obtain ⟨k', v'⟩ := p
      by_cases h : k' = k
      · simp [mapGet, h]
      · simp [mapGet, h, ih, Ne.symm h]

theorem length_mapSet_of_mem (k : String) (v : α) (m : List (String × α))
    (h : k ∈ m.map Prod.fst) : (mapSet k v m).length = m.length := by
  induction m with
  | nil => simp at h
  | cons p rest ih =>
      obtain ⟨k', v'⟩ := p
      by_cases hk : k' = k
      · simp [mapSet, hk]
      · rw [List.map_cons] at h
        have hmem : k ∈ rest.map Prod.fst := by
          rcases List.mem_cons.mp h with h1 | h2
          · exact absurd h1.symm hk
          · exact h2
        simp [mapSet, hk, ih hmem]

-- ─── Data model (p2pStore.ts) ─────────────────────────────────────

structure P2PSession where
  id : String
  tag : String
  seq : Nat
  metadata : String
  metadataVersion : Nat
  agentState : Option String
  agentStateVersion : Nat
  dataEncryptionKey : Option String
  active : Bool
  activeAt : Nat
  createdAt : Nat
  updatedAt : Nat
  deriving DecidableEq, Repr

/-- Message content is stored wrapped; `t` is always the literal `"encrypted"`. -/
structure MessageContent where
  t : String
  c : String
  deriving DecidableEq, Repr

structure P2PMessage where
  id : String
  sessionId : String
  seq : Nat
  content : MessageContent
  localId : Option String
  createdAt : Nat
  updatedAt : Nat
  deriving DecidableEq, Repr

structure P2PMachine where
  id : String
  seq : Nat
  metadata : String
  metadataVersion : Nat
  daemonState : Option String
  daemonStateVersion : Nat
  dataEncryptionKey : Option String
  active : Bool
  activeAt : Nat
  createdAt : Nat
  updatedAt : Nat
  deriving DecidableEq, Repr

structure P2PArtifact where
  id : String
  seq : Nat
  header : String
  headerVersion : Nat
  body : String
  bodyVersion : Nat
  dataEncryptionKey : String
  createdAt : Nat
  updatedAt : Nat
  deriving DecidableEq, Repr

structure P2PStore where
  sessions : List (String × P2PSession)
  sessionMessages : List (String × List P2PMessage)
  machines : List (String × P2PMachine)
  artifacts : List (String × P2PArtifact)
  userSeq : Nat
  sessionSeqs : List (String × Nat)
  deriving DecidableEq, Repr

/-- The store a fresh daemon starts with (`new P2PStore()`). -/
def emptyStore : P2PStore := ⟨[], [], [], [], 0, []⟩

-- ─── Sequences ────────────────────────────────────────────────────

/-- `allocateUserSeq(): number { return ++this.userSeq; }` -/
def allocateUserSeq (st : P2PStore) : Nat × P2PStore :=
  (st.userSeq + 1, { st with userSeq := st.userSeq + 1 })

/-- `allocateSessionSeq`: `(this.sessionSeqs.get(sessionId) || 0) + 1`, stored back. -/
def allocateSessionSeq (st : P2PStore) (sessionId : String) : Nat × P2PStore :=
  let current := (mapGet sessionId st.sessionSeqs).getD 0
  let next := current + 1
  (next, { st with sessionSeqs := mapSet sessionId next st.sessionSeqs })

-- ─── Sessions ─────────────────────────────────────────────────────

def getSession (st : P2PStore) (id : String) : Option P2PSession :=
  mapGet id st.sessions

/-- `getSessionByTag`: first session (in insertion order) whose tag matches. -/
def getSessionByTag (st : P2PStore) (tag : String) : Option P2PSession :=
  (st.sessions.map Prod.snd).find? (fun s => s.tag == tag)

/-- The in-place rebind `createSession` performs on an existing session with the tag. -/
def rebindSession (s : P2PSession) (now : Nat) (metadata : String)
    (dataEncryptionKey : Option String) : P2PSession :=
  { s with
    metadata := metadata
    metadataVersion := s.metadataVersion + 1
    active := true
    activeAt := now
    updatedAt := now
    dataEncryptionKey := match dataEncryptionKey with
      | some k => some k
      | none => s.dataEncryptionKey }

/-- `P2PStore.createSession(tag, metadata, dataEncryptionKey)`.
`freshId` stands for the `randomUUID()` drawn in the fresh branch. -/
def createSession (st : P2PStore) (now : Nat) (freshId : String) (tag metadata : String)
    (dataEncryptionKey : Option String) : P2PSession × P2PStore :=
  match (st.sessions.map Prod.snd).find? (fun s => s.tag == tag) with
  | some s =>
      let s' := rebindSession s now metadata dataEncryptionKey
      (s', { st with sessions := mapSet s'.id s' st.sessions })
  | none =>
      let seq1 := st.userSeq + 1
      let s : P2PSession :=
        { id := freshId, tag := tag, seq := seq1, metadata := metadata,
          metadataVersion := 1, agentState := none, agentStateVersion := 1,
          dataEncryptionKey := dataEncryptionKey, active := true,
          activeAt := now, createdAt := now, updatedAt := now }
      (s, { st with
              userSeq := seq1
              sessions := mapSet freshId s st.sessions
              sessionMessages := mapSet freshId [] st.sessionMessages })

/-- `deleteSession(id)`: drops the session, its message list and its seq counter. -/
def deleteSession (st : P2PStore) (id : String) : Bool × P2PStore :=
  ((mapGet id st.sessions).isSome,
   { st with
       sessions := mapDelete id st.sessions
       sessionMessages := mapDelete id st.sessionMessages
       sessionSeqs := mapDelete id st.sessionSeqs })

inductive UpdateResultKind
  | success
  | versionMismatch
  | error
  deriving DecidableEq, Repr

/-- Shape of `updateSessionMetadata`'s return value. -/
structure MetadataUpdateResponse where
  result : UpdateResultKind
  version : Nat
  metadata : String
  deriving DecidableEq, Repr

/-- `P2PStore.updateSessionMetadata(sessionId, metadata, expectedVersion)`. -/
def updateSessionMetadata (st : P2PStore) (now : Nat) (sessionId metadata : String)
    (expectedVersion : Nat) : MetadataUpdateResponse × P2PStore :=
  match mapGet sessionId st.sessions with
  | none => (⟨.error, 0, ""⟩, st)
  | some s =>
      if s.metadataVersion ≠ expectedVersion then
        (⟨.versionMismatch, s.metadataVersion, s.metadata⟩, st)
      else
        let s' := { s with
                      metadata := metadata
                      metadataVersion := s.metadataVersion + 1
                      updatedAt := now }
        (⟨.success, s'.metadataVersion, s'.metadata⟩,
         { st with sessions := mapSet sessionId s' st.sessions })

/-- Shape of `updateSessionState`'s return value. -/
structure StateUpdateResponse where
  result : UpdateResultKind
  version : Nat
  agentState : Option String
  deriving DecidableEq, Repr

/-- `P2PStore.updateSessionState(sessionId, agentState, expectedVersion)`. -/
def updateSessionState (st : P2PStore) (now : Nat) (sessionId : String)
    (agentState : Option String) (expectedVersion : Nat) :
    StateUpdateResponse × P2PStore :=
  match mapGet sessionId st.sessions with
  | none => (⟨.error, 0, none⟩, st)
  | some s =>
      if s.agentStateVersion ≠ expectedVersion then
        (⟨.versionMismatch, s.agentStateVersion, s.agentState⟩, st)
      else
        let s' := { s with
                      agentState := agentState
                      agentStateVersion := s.agentStateVersion + 1
                      updatedAt := now }
        (⟨.success, s'.agentStateVersion, s'.agentState⟩,
         { st with sessions := mapSet sessionId s' st.sessions })

-- ─── Event router (p2pEventRouter.ts) ─────────────────────────────

inductive ConnectionType
  | userScoped
  | sessionScoped
  | machineScoped
  deriving DecidableEq, Repr

/-- A live client connection; `socket` stands for the socket handle's identity. -/
structure P2PClientConnection where
  socket : Nat
  connectionType : ConnectionType
  sessionId : Option String
  machineId : Option String
  deriving DecidableEq, Repr

inductive RecipientFilter
  | allInterestedInSession (sessionId : String)
  | userScopedOnly
  | machineScopedOnly (machineId : String)
  | allUserAuthenticatedConnections
  deriving DecidableEq, Repr

/-- `P2PEventRouter.matchesFilter(conn, filter)`. -/
def matchesFilter (conn : P2PClientConnection) : RecipientFilter → Bool
  | .allInterestedInSession sid =>
      conn.connectionType == .userScoped ||
        (conn.connectionType == .sessionScoped && conn.sessionId == some sid)
  | .userScopedOnly => conn.connectionType == .userScoped
  | .machineScopedOnly mid =>
      conn.connectionType == .userScoped ||
        (conn.connectionType == .machineScoped && conn.machineId == some mid)
  | .allUserAuthenticatedConnections => true

/-- `emitUpdate` / `emitEphemeral` recipient selection: every attached connection
that is not the skipped sender and matches the filter (the payload is handed to
exactly these connections, in attachment order). -/
def emitRecipients (conns : List P2PClientConnection) (filter : RecipientFilter)
    (skipSender : Option Nat) : List P2PClientConnection :=
  conns.filter (fun c =>
    (match skipSender with
     | some s => !(c.socket == s)
     | none => true) && matchesFilter c filter)

-- ─── Update payloads (wire shape of the `update` event) ───────────

inductive UpdateBody
  | newSession (sessionId : String) (seq : Nat) (metadata : String) (metadataVersion : Nat)
      (agentState : Option String) (agentStateVersion : Nat)
      (dataEncryptionKey : Option String) (active : Bool) (activeAt : Nat)
      (createdAt : Nat) (updatedAt : Nat)
  | updateSessionMeta (sid : String) (version : Nat) (value : String)
  | updateArtifact (artifactId : String) (headerPart : Option (Nat × String))
      (bodyPart : Option (Nat × String))
  deriving DecidableEq, Repr

/-- The discriminator `body.t` of an update body. -/
def UpdateBody.t : UpdateBody → String
  | .newSession .. => "new-session"
  | .updateSessionMeta .. => "update-session"
  | .updateArtifact .. => "update-artifact"

structure UpdatePayload where
  id : String
  seq : Nat
  body : UpdateBody
  createdAt : Nat
  deriving DecidableEq, Repr

-- ─── Concrete fixtures used by the witnesses below ────────────────

def sessW1 : P2PSession :=
  ⟨"s1", "t", 1, "m0", 3, none, 1, none, true, 0, 0, 0⟩

def stW1 : P2PStore :=
  ⟨[("s1", sessW1)], [("s1", [])], [], [], 1, [("s1", 5)]⟩

-- ─── C1 ───────────────────────────────────────────────────────────

/-- C1: for every store and session id present in it, `updateSessionMetadata`
with the matching expected version succeeds with the new value and version
old + 1, storing the new metadata and refreshing `updatedAt`; with any other
expected version it reports `version-mismatch` carrying the current version and
current value and leaves the store (hence the session) completely unchanged. -/
theorem updateSessionMetadata_occ (st : P2PStore) (now : Nat) (sid value : String)
    (expectedVersion : Nat) (s : P2PSession) (hs : getSession st sid = some s) :
    (expectedVersion = s.metadataVersion →
      updateSessionMetadata st now sid value expectedVersion =
        (⟨.success, s.metadataVersion + 1, value⟩,
         { st with sessions := mapSet sid ({ s with metadata := value, metadataVersion := s.metadataVersion + 1, updatedAt := now }) st.sessions })
      ∧ getSession (updateSessionMetadata st now sid value expectedVersion).2 sid =
          some ({ s with metadata := value, metadataVersion := s.metadataVersion + 1,
                         updatedAt := now }))
    ∧ (expectedVersion ≠ s.metadataVersion →
      updateSessionMetadata st now sid value expectedVersion =
        (⟨.versionMismatch, s.metadataVersion, s.metadata⟩, st)) := by
  have hm : mapGet sid st.sessions = some s := hs
  constructor
  · intro hv
    subst hv
    constructor
    · simp [updateSessionMetadata, hm]
    · simp [updateSessionMetadata, hm, getSession, mapGet_mapSet_self]
  · intro hv
    simp [updateSessionMetadata, hm, Ne.symm hv]

theorem updateSessionMetadata_occ_witness :
    (updateSessionMetadata stW1 9 "s1" "m1" 3 =
      (⟨.success, 4, "m1"⟩,
       { stW1 with sessions := mapSet "s1" ({ sessW1 with metadata := "m1", metadataVersion := 4, updatedAt := 9 }) stW1.sessions }))
    ∧ updateSessionMetadata stW1 9 "s1" "m1" 7 =
        (⟨.versionMismatch, 3, "m0"⟩, stW1) := by
  constructor
  · exact ((updateSessionMetadata_occ stW1 9 "s1" "m1" 3 sessW1 (by decide)).1 rfl).1
  · exact (updateSessionMetadata_occ stW1 9 "s1" "m1" 7 sessW1 (by decide)).2 (by decide)

-- ─── C10 ──────────────────────────────────────────────────────────

/-- C10: `deleteSession(id)` removes the session, its message list and its
per-session sequence counter, and nothing else: every other session, message
list and seq counter, the machines, the artifacts and the user-level counter
are untouched; afterwards `allocateSessionSeq(id)` starts again at 1. -/
theorem deleteSession_frame (st : P2PStore) (id : String) :
    (deleteSession st id).1 = (getSession st id).isSome
    ∧ getSession (deleteSession st id).2 id = none
    ∧ mapGet id (deleteSession st id).2.sessionMessages = none
    ∧ mapGet id (deleteSession st id).2.sessionSeqs = none
    ∧ (∀ k, k ≠ id → getSession (deleteSession st id).2 k = getSession st k)
    ∧ (∀ k, k ≠ id →
        mapGet k (deleteSession st id).2.sessionMessages = mapGet k st.sessionMessages)
    ∧ (∀ k, k ≠ id →
        mapGet k (deleteSession st id).2.sessionSeqs = mapGet k st.sessionSeqs)
    ∧ (deleteSession st id).2.machines = st.machines
    ∧ (deleteSession st id).2.artifacts = st.artifacts
    ∧ (deleteSession st id).2.userSeq = st.userSeq
    ∧ (allocateSessionSeq (deleteSession st id).2 id).1 = 1
    ∧ mapGet id (allocateSessionSeq (deleteSession st id).2 id).2.sessionSeqs = some 1 := by
  refine ⟨rfl, ?_, ?_, ?_, ?_, ?_, ?_, rfl, rfl, rfl, ?_, ?_⟩
  · exact mapGet_mapDelete_self id st.sessions
  · exact mapGet_mapDelete_self id st.sessionMessages
  · exact mapGet_mapDelete_self id st.sessionSeqs
  · intro k hk
    exact mapGet_mapDelete_ne id k st.sessions hk
  · intro k hk
    exact mapGet_mapDelete_ne id k st.sessionMessages hk
  · intro k hk
    exact mapGet_mapDelete_ne id k st.sessionSeqs hk
  · simp [allocateSessionSeq, deleteSession, mapGet_mapDelete_self]
  · simp [allocateSessionSeq, deleteSession, mapGet_mapDelete_self, mapGet_mapSet_self]

theorem deleteSession_frame_witness :
    getSession (deleteSession stW1 "s1").2 "s1" = none
    ∧ getSession (deleteSession stW1 "s1").2 "zz" = getSession stW1 "zz"
    ∧ mapGet "zz" (deleteSession stW1 "s1").2.sessionSeqs =
        mapGet "zz" stW1.sessionSeqs
    ∧ (allocateSessionSeq (deleteSession stW1 "s1").2 "s1").1 = 1 := by
  refine ⟨(deleteSession_frame stW1 "s1").2.1, ?_, ?_, ?_⟩
  · exact (deleteSession_frame stW1 "s1").2.2.2.2.1 "zz" (by decide)
  · exact (deleteSession_frame stW1 "s1").2.2.2.2.2.2.1 "zz" (by decide)
  · exact (deleteSession_frame stW1 "s1").2.2.2.2.2.2.2.2.2.2.1

-- ─── RPC registry (p2pSocketHandlers.ts) ──────────────────────────

/-- An entry of the `rpcListeners` map; `socket` is the owning socket's identity. -/
structure RPCListener where
  method : String
  socket : Nat
  deriving DecidableEq, Repr

inductive RpcReply
  | rpcRegistered (method : String)
  | rpcUnregistered (method : String)
  | rpcError (kind : String) (message : String)
  deriving DecidableEq, Repr

/-- The `rpc-register` handler: reject when the method is already bound. -/
def rpcRegister (reg : List (String × RPCListener)) (method : String) (sock : Nat) :
    List (String × RPCListener) × RpcReply :=
  match mapGet method reg with
  | some _ => (reg, .rpcError "register" ("Method " ++ method ++ " already registered"))
  | none => (mapSet method ⟨method, sock⟩ reg, .rpcRegistered method)

/-- The `rpc-unregister` handler: reject unless the binding is owned by this socket. -/
def rpcUnregister (reg : List (String × RPCListener)) (method : String) (sock : Nat) :
    List (String × RPCListener) × RpcReply :=
  match mapGet method reg with
  | some l =>
      if l.socket == sock then (mapDelete method reg, .rpcUnregistered method)
      else (reg, .rpcError "unregister" ("Method " ++ method ++ " not registered by this socket"))
  | none => (reg, .rpcError "unregister" ("Method " ++ method ++ " not registered by this socket"))

/-- The `disconnect` cleanup: delete every listener registered by this socket. -/
def rpcDisconnect (reg : List (String × RPCListener)) (sock : Nat) :
    List (String × RPCListener) :=
  reg.filter (fun q => !(q.2.socket == sock))

/-- Registry states reachable from the initial empty `rpcListeners` map. -/
inductive RpcReachable : List (String × RPCListener) → Prop
  | empty : RpcReachable []
  | register (r : List (String × RPCListener)) (m : String) (s : Nat) :
      RpcReachable r → RpcReachable (rpcRegister r m s).1
  | unregister (r : List (String × RPCListener)) (m : String) (s : Nat) :
      RpcReachable r → RpcReachable (rpcUnregister r m s).1
  | disconnect (r : List (String × RPCListener)) (s : Nat) :
      RpcReachable r → RpcReachable (rpcDisconnect r s)

theorem mem_keys_mapSet (j k : String) (v : α) (m : List (String × α)) :
    j ∈ (mapSet k v m).map Prod.fst ↔ j = k ∨ j ∈ m.map Prod.fst := by
  induction m with
  | nil => simp [mapSet]
  | cons p rest ih =>
      obtain ⟨k', v'⟩ := p
      by_cases hk : k' = k
      · subst hk
        rw [mapSet, if_pos rfl]
        simp only [List.map_cons, List.mem_cons]
        tauto
      · rw [mapSet, if_neg hk]
        simp only [List.map_cons, List.mem_cons, ih]
        tauto

theorem nodup_keys_mapSet (k : String) (v : α) (m : List (String × α))
    (h : (m.map Prod.fst).Nodup) : ((mapSet k v m).map Prod.fst).Nodup := by
  induction m with
  | nil => simp [mapSet]
  | cons p rest ih =>
      obtain ⟨k', v'⟩ := p
      rw [List.map_cons] at h
      obtain ⟨h1, h2⟩ := List.nodup_cons.mp h
      by_cases hk : k' = k
      · subst hk
        rw [mapSet, if_pos rfl, List.map_cons]
        exact List.nodup_cons.mpr ⟨h1, h2⟩
      · rw [mapSet, if_neg hk, List.map_cons]
        refine List.nodup_cons.mpr ⟨?_, ih h2⟩
        intro hmem
        rcases (mem_keys_mapSet k' k v rest).mp hmem with h3 | h3
        · exact hk h3
        · exact h1 h3

theorem mapDelete_sublist (k : String) (m : List (String × α)) :
    (mapDelete k m).Sublist m := by
  induction m with
  | nil => simp [mapDelete]
  | cons p rest ih =>
      obtain ⟨k', v'⟩ := p
      by_cases h : k' = k
      · rw [mapDelete, if_pos h]
        exact ih.cons _
      · rw [mapDelete, if_neg h]
        exact ih.cons₂ _

theorem mapGet_filter_eq_none (p : String × α → Bool) (m : String)
    (xs : List (String × α)) (h : mapGet m xs = none) :
    mapGet m (xs.filter p) = none := by
  rw [mapGet_eq_none_iff] at h ⊢
  intro hmem
  exact h ((List.Sublist.map Prod.fst (List.filter_sublist xs)).subset hmem)

/-- After a socket disconnects, a method it owned is no longer bound
(given the map invariant of pairwise-distinct keys). -/
theorem mapGet_rpcDisconnect_eq_none (reg : List (String × RPCListener)) (m : String)
    (s : Nat) (hnd : (reg.map Prod.fst).Nodup) (l : RPCListener)
    (hl : mapGet m reg = some l) (hs : l.socket = s) :
    mapGet m (rpcDisconnect reg s) = none := by
  induction reg with
  | nil => simp at hl
  | cons p rest ih =>
      obtain ⟨k', v'⟩ := p
      rw [List.map_cons] at hnd
      obtain ⟨h1, h2⟩ := List.nodup_cons.mp hnd
      by_cases hk : k' = m
      · subst hk
        have hv : v' = l := by simpa [mapGet] using hl
        subst hv
        have hrest : mapGet k' rest = none := (mapGet_eq_none_iff _ _).mpr h1
        have hdrop : rpcDisconnect ((k', v') :: rest) s = rpcDisconnect rest s := by
          simp [rpcDisconnect, List.filter_cons, hs]
        rw [hdrop]
        exact mapGet_filter_eq_none _ _ _ hrest
      · have hl2 : mapGet m rest = some l := by
          simpa [mapGet, hk] using hl
        have htail := ih h2 hl2
        by_cases hc : v'.socket = s
        · simpa [rpcDisconnect, List.filter_cons, hc] using htail
        · have : rpcDisconnect ((k', v') :: rest) s = (k', v') :: rpcDisconnect rest s := by
            simp [rpcDisconnect, List.filter_cons, hc]
          rw [this]
          simpa [mapGet, hk] using htail

theorem rpcReachable_nodup_keys (reg : List (String × RPCListener))
    (h : RpcReachable reg) : (reg.map Prod.fst).Nodup := by
  induction h with
  | empty => simp
  | register r m s hr ih =>
      cases hg : mapGet m r with
      | some l => simpa [rpcRegister, hg] using ih
      | none =>
          have := nodup_keys_mapSet m (⟨m, s⟩ : RPCListener) r ih
          simpa [rpcRegister, hg] using this
  | unregister r m s hr ih =>
      cases hg : mapGet m r with
      | some l =>
          by_cases hsock : l.socket = s
          · have := ih.sublist ((mapDelete_sublist m r).map Prod.fst)
            simpa [rpcUnregister, hg, hsock] using this
          · simpa [rpcUnregister, hg, hsock] using ih
      | none => simpa [rpcUnregister, hg] using ih
  | disconnect r s hr ih =>
      exact ih.sublist (List.Sublist.map Prod.fst (List.filter_sublist r))

-- ─── C3 ───────────────────────────────────────────────────────────

/-- C3: in every reachable state of the RPC registry each method is bound at
most once (keys are pairwise distinct); `rpc-register` of an already-bound
method answers `rpc-error` and changes nothing; `rpc-unregister` by a socket
that does not own the binding answers `rpc-error` and changes nothing; and
after the owning socket disconnects, registering the method again succeeds. -/
theorem rpcRegistry_exclusivity (reg : List (String × RPCListener))
    (h : RpcReachable reg) :
    (reg.map Prod.fst).Nodup
    ∧ (∀ m s l, mapGet m reg = some l →
        rpcRegister reg m s =
          (reg, .rpcError "register" ("Method " ++ m ++ " already registered")))
    ∧ (∀ m s l, mapGet m reg = some l → l.socket ≠ s →
        rpcUnregister reg m s =
          (reg, .rpcError "unregister" ("Method " ++ m ++ " not registered by this socket")))
    ∧ (∀ m s s2 l, mapGet m reg = some l → l.socket = s →
        rpcRegister (rpcDisconnect reg s) m s2 =
          (mapSet m ⟨m, s2⟩ (rpcDisconnect reg s), .rpcRegistered m)) := by
  refine ⟨rpcReachable_nodup_keys reg h, ?_, ?_, ?_⟩
  · intro m s l hl
    simp [rpcRegister, hl]
  · intro m s l hl hs
    simp [rpcUnregister, hl, hs]
  · intro m s s2 l hl hs
    have hnone : mapGet m (rpcDisconnect reg s) = none :=
      mapGet_rpcDisconnect_eq_none reg m s (rpcReachable_nodup_keys reg h) l hl hs
    simp [rpcRegister, hnone]

theorem rpcRegistry_exclusivity_witness :
    rpcRegister (rpcDisconnect (rpcRegister [] "bash" 1).1 1) "bash" 2 =
      (mapSet "bash" ⟨"bash", 2⟩ (rpcDisconnect (rpcRegister [] "bash" 1).1 1),
       .rpcRegistered "bash")
    ∧ (rpcRegister (rpcRegister [] "bash" 1).1 "bash" 2).2 =
        .rpcError "register" ("Method " ++ "bash" ++ " already registered")
    ∧ (rpcUnregister (rpcRegister [] "bash" 1).1 "bash" 2).2 =
        .rpcError "unregister" ("Method " ++ "bash" ++ " not registered by this socket") := by
  have hreach : RpcReachable (rpcRegister [] "bash" 1).1 :=
    RpcReachable.register [] "bash" 1 RpcReachable.empty
  have h := rpcRegistry_exclusivity (rpcRegister [] "bash" 1).1 hreach
  refine ⟨?_, ?_, ?_⟩
  · exact h.2.2.2 "bash" 1 2 ⟨"bash", 1⟩ (by decide) rfl
  · rw [h.2.1 "bash" 2 ⟨"bash", 1⟩ (by decide)]
  · rw [h.2.2.1 "bash" 2 ⟨"bash", 1⟩ (by decide) (by decide)]

-- ─── C4 ───────────────────────────────────────────────────────────

/-- C4 counterexample: the claim says a session-scoped (or machine-scoped)
connection receives exactly the updates whose filter is
`all-interested-in-session(sid)` (resp. `machine-scoped-only(mid)`) "and no
others, quantified over all four filter kinds, including all-authenticated";
but `all-user-authenticated-connections` matches every connection, so a
session-scoped and a machine-scoped connection also receive those updates. -/
theorem matchesFilter_allAuthenticated_counterexample :
    matchesFilter ⟨1, .sessionScoped, some "s", none⟩ .allUserAuthenticatedConnections = true
    ∧ emitRecipients [⟨1, .sessionScoped, some "s", none⟩]
        .allUserAuthenticatedConnections none = [⟨1, .sessionScoped, some "s", none⟩]
    ∧ RecipientFilter.allUserAuthenticatedConnections ≠ .allInterestedInSession "s"
    ∧ matchesFilter ⟨2, .machineScoped, none, some "m"⟩
        .allUserAuthenticatedConnections = true
    ∧ RecipientFilter.allUserAuthenticatedConnections ≠ .machineScopedOnly "m" := by
  refine ⟨rfl, by decide, by decide, rfl, by decide⟩

/-- C4 amended: recipients of an emit are exactly the attached connections
matching the filter (minus the skipped sender); a user-scoped connection
matches every filter; a session-scoped(sid) connection matches exactly
`all-interested-in-session(sid)` and `all-user-authenticated-connections`; a
machine-scoped(mid) connection matches exactly `machine-scoped-only(mid)` and
`all-user-authenticated-connections`. -/
theorem emit_filter_characterization (conns : List P2PClientConnection)
    (c : P2PClientConnection) (f : RecipientFilter) :
    (c ∈ emitRecipients conns f none ↔ c ∈ conns ∧ matchesFilter c f = true)
    ∧ (c.connectionType = .userScoped → matchesFilter c f = true)
    ∧ (∀ sid, c.connectionType = .sessionScoped → c.sessionId = some sid →
        (matchesFilter c f = true ↔
          f = .allInterestedInSession sid ∨ f = .allUserAuthenticatedConnections))
    ∧ (∀ mid, c.connectionType = .machineScoped → c.machineId = some mid →
        (matchesFilter c f = true ↔
          f = .machineScopedOnly mid ∨ f = .allUserAuthenticatedConnections)) := by
  refine ⟨?_, ?_, ?_, ?_⟩
  · simp [emitRecipients, List.mem_filter]
  · intro h
    cases f <;> simp [matchesFilter, h]
  · intro sid hct hsid
    cases f with
    | allInterestedInSession s2 =>
        simp [matchesFilter, hct, hsid]
        exact ⟨Eq.symm, Eq.symm⟩
    | userScopedOnly => simp [matchesFilter, hct]
    | machineScopedOnly m2 => simp [matchesFilter, hct]
    | allUserAuthenticatedConnections => simp [matchesFilter]
  · intro mid hct hmid
    cases f with
    | allInterestedInSession s2 => simp [matchesFilter, hct]
    | userScopedOnly => simp [matchesFilter, hct]
    | machineScopedOnly m2 =>
        simp [matchesFilter, hct, hmid]
        exact ⟨Eq.symm, Eq.symm⟩
    | allUserAuthenticatedConnections => simp [matchesFilter]

theorem emit_filter_characterization_witness :
    matchesFilter ⟨1, .sessionScoped, some "s", none⟩ (.allInterestedInSession "s") = true
    ∧ matchesFilter ⟨2, .machineScoped, none, some "m"⟩ (.machineScopedOnly "m") = true
    ∧ matchesFilter ⟨3, .userScoped, none, none⟩ .userScopedOnly = true := by
  refine ⟨?_, ?_, ?_⟩
  · exact ((emit_filter_characterization [] ⟨1, .sessionScoped, some "s", none⟩
      (.allInterestedInSession "s")).2.2.1 "s" rfl rfl).mpr (Or.inl rfl)
  · exact ((emit_filter_characterization [] ⟨2, .machineScoped, none, some "m"⟩
      (.machineScopedOnly "m")).2.2.2 "m" rfl rfl).mpr (Or.inl rfl)
  · exact (emit_filter_characterization [] ⟨3, .userScoped, none, none⟩
      .userScopedOnly).2.1 rfl

-- ─── Artifacts (p2pStore.ts, artifact-update handler) ─────────────

def getArtifact (st : P2PStore) (id : String) : Option P2PArtifact :=
  mapGet id st.artifacts

/-- Shape of `updateArtifactHeader` / `updateArtifactBody` return values. -/
structure ArtifactFieldResponse where
  result : UpdateResultKind
  version : Nat
  data : String
  deriving DecidableEq, Repr

/-- `P2PStore.updateArtifactHeader(artifactId, header, expectedVersion)`. -/
def updateArtifactHeader (st : P2PStore) (now : Nat) (artifactId header : String)
    (expectedVersion : Nat) : ArtifactFieldResponse × P2PStore :=
  match mapGet artifactId st.artifacts with
  | none => (⟨.error, 0, ""⟩, st)
  | some a =>
      if a.headerVersion ≠ expectedVersion then
        (⟨.versionMismatch, a.headerVersion, a.header⟩, st)
      else
        let a2 := { a with header := header, headerVersion := a.headerVersion + 1,
                           updatedAt := now }
        (⟨.success, a2.headerVersion, a2.header⟩,
         { st with artifacts := mapSet artifactId a2 st.artifacts })

/-- `P2PStore.updateArtifactBody(artifactId, body, expectedVersion)`. -/
def updateArtifactBody (st : P2PStore) (now : Nat) (artifactId bodyData : String)
    (expectedVersion : Nat) : ArtifactFieldResponse × P2PStore :=
  match mapGet artifactId st.artifacts with
  | none => (⟨.error, 0, ""⟩, st)
  | some a =>
      if a.bodyVersion ≠ expectedVersion then
        (⟨.versionMismatch, a.bodyVersion, a.body⟩, st)
      else
        let a2 := { a with body := bodyData, bodyVersion := a.bodyVersion + 1,
                           updatedAt := now }
        (⟨.success, a2.bodyVersion, a2.body⟩,
         { st with artifacts := mapSet artifactId a2 st.artifacts })

/-- One part of a WebSocket `artifact-update` request. -/
structure ArtifactPartUpdate where
  data : String
  expectedVersion : Nat
  deriving DecidableEq, Repr

inductive ArtifactUpdateResponse
  | notFound
  | headerMismatch (currentVersion : Nat) (currentData : String)
  | bodyMismatch (currentVersion : Nat) (currentData : String)
  | updated (headerPart : Option (Nat × String)) (bodyPart : Option (Nat × String))
  deriving DecidableEq, Repr

/-- Success tail of the `artifact-update` handler: build the response, allocate
a user seq for the broadcast `update-artifact` payload (emitted with the
user-scoped-only filter, skipping the sender). -/
def artifactUpdateEmit (st : P2PStore) (now : Nat) (freshUpdateId : String)
    (artifactId : String) (headerResult bodyResult : Option (Nat × String)) :
    ArtifactUpdateResponse × Option UpdatePayload × P2PStore :=
  let alloc := allocateUserSeq st
  (.updated headerResult bodyResult,
   some ⟨freshUpdateId, alloc.1, .updateArtifact artifactId headerResult bodyResult, now⟩,
   alloc.2)

/-- Body half of the `artifact-update` handler (runs after the header half). -/
def artifactUpdateBodyStep (st : P2PStore) (now : Nat) (freshUpdateId : String)
    (artifactId : String) (headerResult : Option (Nat × String))
    (bdy : Option ArtifactPartUpdate) :
    ArtifactUpdateResponse × Option UpdatePayload × P2PStore :=
  match bdy with
  | some bp =>
      let rb := updateArtifactBody st now artifactId bp.data bp.expectedVersion
      if rb.1.result = .versionMismatch then
        (.bodyMismatch rb.1.version rb.1.data, none, rb.2)
      else
        artifactUpdateEmit rb.2 now freshUpdateId artifactId headerResult
          (some (rb.1.version, rb.1.data))
  | none => artifactUpdateEmit st now freshUpdateId artifactId headerResult none

/-- The WebSocket `artifact-update` handler: artifact lookup, then the header
part (applied immediately on success, early-returning on mismatch), then the
body part, then the broadcast. -/
def artifactUpdateHandler (st : P2PStore) (now : Nat) (freshUpdateId : String)
    (artifactId : String) (hdr bdy : Option ArtifactPartUpdate) :
    ArtifactUpdateResponse × Option UpdatePayload × P2PStore :=
  match getArtifact st artifactId with
  | none => (.notFound, none, st)
  | some _ =>
      match hdr with
      | some hp =>
          let rh := updateArtifactHeader st now artifactId hp.data hp.expectedVersion
          if rh.1.result = .versionMismatch then
            (.headerMismatch rh.1.version rh.1.data, none, rh.2)
          else
            artifactUpdateBodyStep rh.2 now freshUpdateId artifactId
              (some (rh.1.version, rh.1.data)) bdy
      | none => artifactUpdateBodyStep st now freshUpdateId artifactId none bdy

def artW1 : P2PArtifact := ⟨"a", 1, "h0", 1, "b0", 1, "k", 0, 0⟩

def stA0 : P2PStore := ⟨[], [], [], [("a", artW1)], 1, []⟩

-- ─── C6 ───────────────────────────────────────────────────────────

/-- C6 counterexample: a both-part `artifact-update` whose header expected
version matches (1) but whose body expected version (2) differs from the
stored bodyVersion (1) does answer `version-mismatch`, yet the artifact is NOT
left unchanged: the header part was already applied, so header = "h1",
headerVersion = 2 and updatedAt = 5, against the claimed unchanged 1 / 0. -/
theorem artifactUpdate_partialWrite_counterexample :
    (artifactUpdateHandler stA0 5 "u" "a" (some ⟨"h1", 1⟩) (some ⟨"b1", 2⟩)).1 =
      .bodyMismatch 1 "b0"
    ∧ getArtifact
        (artifactUpdateHandler stA0 5 "u" "a" (some ⟨"h1", 1⟩) (some ⟨"b1", 2⟩)).2.2 "a" =
        some ⟨"a", 1, "h1", 2, "b0", 1, "k", 0, 5⟩
    ∧ (getArtifact
        (artifactUpdateHandler stA0 5 "u" "a" (some ⟨"h1", 1⟩) (some ⟨"b1", 2⟩)).2.2 "a").map
          P2PArtifact.headerVersion ≠ some 1
    ∧ (getArtifact stA0 "a").map P2PArtifact.headerVersion = some 1 := by
  refine ⟨by decide, by decide, by decide, by decide⟩

/-- C6 amended: with both parts present, header expected version matching and
body expected version differing from the stored bodyVersion, the handler
answers `version-mismatch` carrying the current body version and value and
emits no update; the body and bodyVersion are unchanged, but the header part
has already been applied: header replaced, headerVersion exactly +1,
updatedAt refreshed. -/
theorem artifactUpdate_bodyMismatch (st : P2PStore) (now : Nat) (uid aid : String)
    (hdata bdata : String) (bexp : Nat) (a : P2PArtifact)
    (ha : getArtifact st aid = some a) (hb : bexp ≠ a.bodyVersion) :
    artifactUpdateHandler st now uid aid (some ⟨hdata, a.headerVersion⟩) (some ⟨bdata, bexp⟩) =
      (.bodyMismatch a.bodyVersion a.body, none,
       { st with artifacts := mapSet aid ({ a with header := hdata, headerVersion := a.headerVersion + 1, updatedAt := now }) st.artifacts })
    ∧ getArtifact
        (artifactUpdateHandler st now uid aid (some ⟨hdata, a.headerVersion⟩)
          (some ⟨bdata, bexp⟩)).2.2 aid =
        some ({ a with header := hdata, headerVersion := a.headerVersion + 1, updatedAt := now }) := by
  have hm : mapGet aid st.artifacts = some a := ha
  constructor
  · simp [artifactUpdateHandler, getArtifact, hm, updateArtifactHeader,
      artifactUpdateBodyStep, updateArtifactBody, mapGet_mapSet_self, Ne.symm hb]
  · simp [artifactUpdateHandler, getArtifact, hm, updateArtifactHeader,
      artifactUpdateBodyStep, updateArtifactBody, mapGet_mapSet_self, Ne.symm hb]

theorem artifactUpdate_bodyMismatch_witness :
    (artifactUpdateHandler stA0 5 "u" "a" (some ⟨"h1", artW1.headerVersion⟩)
      (some ⟨"b1", 2⟩)).2.1 = none := by
  have h := artifactUpdate_bodyMismatch stA0 5 "u" "a" "h1" "b1" 2 artW1
    (by decide) (by decide)
  rw [h.1]

-- ─── REST routes (p2pRestRoutes.ts) ───────────────────────────────

/-- Shape of `sessionToResponse` (the constant `lastMessage: null` is omitted). -/
structure SessionResponse where
  id : String
  tag : String
  seq : Nat
  createdAt : Nat
  updatedAt : Nat
  active : Bool
  activeAt : Nat
  metadata : String
  metadataVersion : Nat
  agentState : Option String
  agentStateVersion : Nat
  dataEncryptionKey : Option String
  deriving DecidableEq, Repr

def sessionToResponse (s : P2PSession) : SessionResponse :=
  ⟨s.id, s.tag, s.seq, s.createdAt, s.updatedAt, s.active, s.activeAt, s.metadata,
   s.metadataVersion, s.agentState, s.agentStateVersion, s.dataEncryptionKey⟩

structure PostSessionsRequest where
  tag : String
  metadata : String
  agentState : Option String
  dataEncryptionKey : Option String
  deriving DecidableEq, Repr

/-- JS `x || null` on an optional string: the empty string is falsy. -/
def orNull (x : Option String) : Option String :=
  match x with
  | some v => if v = "" then none else some v
  | none => none

/-- The `POST /v1/sessions` handler.  With an existing tag it returns the
stored session as-is (it never calls `createSession`); otherwise it creates
the session, optionally sets the initial agent state (mutating the same
session object), and broadcasts a `new-session` update whose top-level seq is
a second `allocateUserSeq`, with the `user-scoped-only` filter and no skipped
sender.  The HTTP status is the fastify default 200 (never set explicitly). -/
def postV1Sessions (st : P2PStore) (now : Nat) (freshSessionId freshUpdateId : String)
    (req : PostSessionsRequest) :
    (SessionResponse × Option (UpdatePayload × RecipientFilter)) × P2PStore :=
  match getSessionByTag st req.tag with
  | some existing => ((sessionToResponse existing, none), st)
  | none =>
      let created := createSession st now freshSessionId req.tag req.metadata
        (orNull req.dataEncryptionKey)
      let session := created.1
      let st1 := created.2
      let afterState :=
        match req.agentState with
        | some a =>
            if a = "" then st1
            else (updateSessionState st1 now session.id (some a) session.agentStateVersion).2
        | none => st1
      let session2 := (getSession afterState session.id).getD session
      let alloc := allocateUserSeq afterState
      let update : UpdatePayload :=
        ⟨freshUpdateId, alloc.1,
         .newSession session2.id session2.seq session2.metadata session2.metadataVersion
           session2.agentState session2.agentStateVersion session2.dataEncryptionKey
           session2.active session2.activeAt session2.createdAt session2.updatedAt,
         now⟩
      ((sessionToResponse session2, some (update, .userScopedOnly)), alloc.2)

-- ─── C2 ───────────────────────────────────────────────────────────

/-- C2 counterexample: `POST /v1/sessions` with an already-present tag "t"
returns the stored session untouched — metadata still "m0" (not the supplied
"new"), metadataVersion still 3 (not 4) — and changes nothing in the store,
contradicting the claim's endpoint half. -/
theorem postSessions_existingTag_counterexample :
    (postV1Sessions stW1 9 "f" "u" ⟨"t", "new", none, none⟩).1.1.metadata = "m0"
    ∧ (postV1Sessions stW1 9 "f" "u" ⟨"t", "new", none, none⟩).1.1.metadata ≠ "new"
    ∧ (postV1Sessions stW1 9 "f" "u" ⟨"t", "new", none, none⟩).1.1.metadataVersion = 3
    ∧ (postV1Sessions stW1 9 "f" "u" ⟨"t", "new", none, none⟩).1.1.metadataVersion ≠ 4
    ∧ (postV1Sessions stW1 9 "f" "u" ⟨"t", "new", none, none⟩).2 = stW1 := by
  refine ⟨by decide, by decide, by decide, by decide, by decide⟩

/-- C2 amended: `Store.createSession` on an existing tag rebinds in place —
id preserved, metadata replaced, metadataVersion exactly +1, marked active,
no fresh user-seq, no new session — while `POST /v1/sessions` on an existing
tag returns the stored session unchanged and does not touch the store; for a
tag not present a fresh id and user-seq are allocated and both versions are
initialised at 1. -/
theorem createSession_tagSemantics (st : P2PStore) (now : Nat)
    (fid uid tag md : String) (dek : Option String) (req : PostSessionsRequest) :
    (∀ s, getSessionByTag st tag = some s →
      createSession st now fid tag md dek =
        (rebindSession s now md dek,
         { st with sessions := mapSet s.id (rebindSession s now md dek) st.sessions })
      ∧ (rebindSession s now md dek).id = s.id
      ∧ (rebindSession s now md dek).metadata = md
      ∧ (rebindSession s now md dek).metadataVersion = s.metadataVersion + 1
      ∧ (rebindSession s now md dek).active = true
      ∧ (createSession st now fid tag md dek).2.userSeq = st.userSeq
      ∧ (s.id ∈ st.sessions.map Prod.fst →
          (createSession st now fid tag md dek).2.sessions.length = st.sessions.length))
    ∧ (∀ s, getSessionByTag st req.tag = some s →
        postV1Sessions st now fid uid req = ((sessionToResponse s, none), st))
    ∧ (getSessionByTag st tag = none →
        (createSession st now fid tag md dek).1.id = fid
        ∧ (createSession st now fid tag md dek).1.seq = st.userSeq + 1
        ∧ (createSession st now fid tag md dek).1.metadataVersion = 1
        ∧ (createSession st now fid tag md dek).1.agentStateVersion = 1
        ∧ (createSession st now fid tag md dek).2.userSeq = st.userSeq + 1
        ∧ getSession (createSession st now fid tag md dek).2 fid =
            some (createSession st now fid tag md dek).1) := by
  refine ⟨?_, ?_, ?_⟩
  · intro s hs
    have hfind : (st.sessions.map Prod.snd).find? (fun x => x.tag == tag) = some s := hs
    refine ⟨?_, rfl, rfl, rfl, rfl, ?_, ?_⟩
    · simp [createSession, hfind, rebindSession]
    · simp [createSession, hfind]
    · intro hmem
      have hlen : (mapSet (rebindSession s now md dek).id (rebindSession s now md dek)
          st.sessions).length = st.sessions.length :=
        length_mapSet_of_mem _ _ _ hmem
      simpa [createSession, hfind] using hlen
  · intro s hs
    simp [postV1Sessions, hs]
  · intro hs
    have hfind : (st.sessions.map Prod.snd).find? (fun x => x.tag == tag) = none := hs
    refine ⟨?_, ?_, ?_, ?_, ?_, ?_⟩ <;>
      simp [createSession, hfind, getSession, mapGet_mapSet_self]

theorem createSession_tagSemantics_witness :
    createSession stW1 9 "f" "t" "new" none =
      (rebindSession sessW1 9 "new" none,
       { stW1 with sessions := mapSet "s1" (rebindSession sessW1 9 "new" none) stW1.sessions })
    ∧ postV1Sessions stW1 9 "f" "u" ⟨"t", "new", none, none⟩ =
        ((sessionToResponse sessW1, none), stW1)
    ∧ (createSession stW1 9 "f2" "x" "m" none).1.seq = 2 := by
  have h := createSession_tagSemantics stW1 9 "f" "u" "t" "new" none
    ⟨"t", "new", none, none⟩
  have h2 := createSession_tagSemantics stW1 9 "f2" "u" "x" "m" none
    ⟨"t", "new", none, none⟩
  exact ⟨(h.1 sessW1 (by decide)).1, h.2.1 sessW1 (by decide), (h2.2.2 (by decide)).2.1⟩

-- ─── C7 ───────────────────────────────────────────────────────────

/-- C7 counterexample: on a fresh store, the broadcast `new-session` update's
top-level `seq` is 2 — `createSession` consumed user-seq 1 for the session and
the handler draws a second user-seq for the update — not 1 as claimed (the
session's own seq, carried inside the body, is 1). -/
theorem postSessions_updateSeq_counterexample :
    (postV1Sessions emptyStore 0 "S" "U" ⟨"T1", "AAAA", none, none⟩).1.2 =
      some (⟨"U", 2, .newSession "S" 1 "AAAA" 1 none 1 none true 0 0 0, 0⟩,
            .userScopedOnly)
    ∧ ((postV1Sessions emptyStore 0 "S" "U" ⟨"T1", "AAAA", none, none⟩).1.2.map
        (fun p => p.1.seq)) = some 2
    ∧ ((postV1Sessions emptyStore 0 "S" "U" ⟨"T1", "AAAA", none, none⟩).1.2.map
        (fun p => p.1.seq)) ≠ some 1 := by
  refine ⟨by decide, by decide, by decide⟩

/-- C7 amended: `POST /v1/sessions {tag:"T1", metadata:"AAAA",
dataEncryptionKey:null}` on a fresh store answers (status 200, the fastify
default) with a session of seq 1 and metadataVersion 1, and broadcasts an
update with `body.t = "new-session"` and top-level seq 2 under the
`user-scoped-only` filter with no skipped sender, which every attached
user-scoped connection receives. -/
theorem postSessions_freshStore (now : Nat) (fid uid : String) :
    (postV1Sessions emptyStore now fid uid ⟨"T1", "AAAA", none, none⟩).1.1.seq = 1
    ∧ (postV1Sessions emptyStore now fid uid ⟨"T1", "AAAA", none, none⟩).1.1.metadataVersion = 1
    ∧ (postV1Sessions emptyStore now fid uid ⟨"T1", "AAAA", none, none⟩).1.2 =
        some (⟨uid, 2, .newSession fid 1 "AAAA" 1 none 1 none true now now now, now⟩,
              .userScopedOnly)
    ∧ (∀ conns conn, conn ∈ conns → conn.connectionType = .userScoped →
        conn ∈ emitRecipients conns .userScopedOnly none) := by
  refine ⟨?_, ?_, ?_, ?_⟩
  · simp [postV1Sessions, getSessionByTag, emptyStore, createSession, getSession,
      mapGet_mapSet_self, sessionToResponse]
  · simp [postV1Sessions, getSessionByTag, emptyStore, createSession, getSession,
      mapGet_mapSet_self, sessionToResponse]
  · simp [postV1Sessions, getSessionByTag, emptyStore, createSession, getSession,
      mapGet_mapSet_self, allocateUserSeq, orNull]
  · intro conns conn hmem hct
    simp [emitRecipients, List.mem_filter, matchesFilter, hct, hmem]

theorem postSessions_freshStore_witness :
    (⟨7, .userScoped, none, none⟩ : P2PClientConnection) ∈
      emitRecipients [⟨7, .userScoped, none, none⟩] .userScopedOnly none
    ∧ (postV1Sessions emptyStore 3 "S" "U" ⟨"T1", "AAAA", none, none⟩).1.1.seq = 1 := by
  refine ⟨?_, (postSessions_freshStore 3 "S" "U").1⟩
  exact (postSessions_freshStore 3 "S" "U").2.2.2
    [⟨7, .userScoped, none, none⟩] ⟨7, .userScoped, none, none⟩ (by simp) rfl

-- ─── C9 ───────────────────────────────────────────────────────────

/-- `POST /v1/artifacts` stub: replies 501 whatever the request carries. -/
def postV1ArtifactsRoute (_requestBody : String) : Nat × String :=
  (501, "Artifacts not supported in P2P mode")

/-- `POST /v1/artifacts/:artifactId` stub: replies 501. -/
def postV1ArtifactByIdRoute (_artifactId : String) : Nat × String :=
  (501, "Artifacts not supported in P2P mode")

/-- `DELETE /v1/artifacts/:artifactId` stub: replies 501. -/
def deleteV1ArtifactByIdRoute (_artifactId : String) : Nat × String :=
  (501, "Artifacts not supported in P2P mode")

/-- `POST /v1/voice/token` stub: the code replies 400, not 501. -/
def postV1VoiceTokenRoute (_requestBody : String) : Nat × String :=
  (400, "Voice not supported in P2P mode")

/-- C9 counterexample: the voice-token stub answers 400 (with "Voice not
supported in P2P mode"), not the claimed 501. -/
theorem voiceToken_not501_counterexample :
    postV1VoiceTokenRoute "" = (400, "Voice not supported in P2P mode")
    ∧ (postV1VoiceTokenRoute "").1 ≠ 501 :=
  ⟨rfl, by decide⟩

/-- C9 amended: the three artifact stub routes reply 501 for every request;
the voice-token stub replies 400. -/
theorem stubRouteStatuses (requestBody artifactId : String) :
    (postV1ArtifactsRoute requestBody).1 = 501
    ∧ (postV1ArtifactByIdRoute artifactId).1 = 501
    ∧ (deleteV1ArtifactByIdRoute artifactId).1 = 501
    ∧ (postV1VoiceTokenRoute requestBody).1 = 400 :=
  ⟨rfl, rfl, rfl, rfl⟩

-- ─── Auth and socket handshake (p2pAuth.ts, p2pServer.ts) ─────────

/-- `deriveBearerToken`: the external `HMAC-SHA256` primitive (node:crypto),
passed in as `hmacHex` with hex-string output, applied to the shared secret
and the constant context string. -/
def deriveBearerToken (hmacHex : List Nat → String → String) (secret : List Nat) : String :=
  hmacHex secret "p2p-auth"

/-- `verifyBearerToken`: length guard, then `timingSafeEqual` over the UTF-8
bytes inside try/catch.  Byte equality of strings is string equality, and the
thrown-and-caught unequal-byte-length case also yields false, so the whole
function is the length guard plus plain equality with the derived token. -/
def verifyBearerToken (hmacHex : List Nat → String → String) (token : String)
    (secret : List Nat) : Bool :=
  let expected := deriveBearerToken hmacHex secret
  if token.length ≠ expected.length then false
  else token == expected

/-- A correctly derived token always verifies against its own secret. -/
theorem verify_derive_roundtrip (hmacHex : List Nat → String → String)
    (secret : List Nat) :
    verifyBearerToken hmacHex (deriveBearerToken hmacHex secret) secret = true := by
  simp [verifyBearerToken]

/-- The Socket.IO handshake `auth` payload `{token, clientType, sessionId?, machineId?}`. -/
structure HandshakeAuth where
  token : Option String
  clientType : Option ConnectionType
  sessionId : Option String
  machineId : Option String
  deriving DecidableEq, Repr

/-- The `io.use` middleware plus the connection handler: reject when the token
is absent or empty (JS falsy) or fails verification; otherwise register the
connection with `clientType || 'user-scoped'` and whatever ids the handshake
supplied — no check that the scope-required id is present. -/
def socketHandshake (hmacHex : List Nat → String → String) (secret : List Nat)
    (sock : Nat) (auth : HandshakeAuth) : Option P2PClientConnection :=
  match auth.token with
  | none => none
  | some t =>
      if t = "" then none
      else if verifyBearerToken hmacHex t secret then
        some ⟨sock, auth.clientType.getD .userScoped, auth.sessionId, auth.machineId⟩
      else none

-- ─── C8 ───────────────────────────────────────────────────────────

/-- C8 counterexample: a handshake whose token verifies but which declares
`session-scoped` with no sessionId is accepted and registered (with no session
id), not rejected.  The HMAC primitive is instantiated with a concrete
function so that `"tok"` is the genuinely verifying bearer token. -/
theorem handshake_missingScopeId_counterexample :
    socketHandshake (fun _ _ => "tok") [] 1 ⟨some "tok", some .sessionScoped, none, none⟩ =
      some ⟨1, .sessionScoped, none, none⟩
    ∧ verifyBearerToken (fun _ _ => "tok") "tok" [] = true
    ∧ socketHandshake (fun _ _ => "tok") [] 1
        ⟨some "tok", some .sessionScoped, none, none⟩ ≠ none := by
  refine ⟨by decide, by decide, by decide⟩

/-- C8 amended: the handshake checks only the bearer token — it is accepted
iff the token is present, non-empty and verifies; when the token verifies the
connection is registered with `clientType || 'user-scoped'` and the supplied
(possibly absent) ids, even when the scope-required id is missing. -/
theorem handshake_tokenOnly (hmacHex : List Nat → String → String) (secret : List Nat)
    (sock : Nat) (auth : HandshakeAuth) :
    ((socketHandshake hmacHex secret sock auth).isSome ↔
      ∃ t, auth.token = some t ∧ t ≠ "" ∧ verifyBearerToken hmacHex t secret = true)
    ∧ (∀ t, auth.token = some t → t ≠ "" → verifyBearerToken hmacHex t secret = true →
        socketHandshake hmacHex secret sock auth =
          some ⟨sock, auth.clientType.getD .userScoped, auth.sessionId, auth.machineId⟩) := by
  constructor
  · cases htok : auth.token with
    | none => simp [socketHandshake, htok]
    | some t =>
        by_cases he : t = ""
        · simp [socketHandshake, htok, he]
        · by_cases hv : verifyBearerToken hmacHex t secret = true
          · simp [socketHandshake, htok, he, hv]
          · simp [socketHandshake, htok, he, hv]
  · intro t htok hne hv
    simp [socketHandshake, htok, hne, hv]

theorem handshake_tokenOnly_witness :
    socketHandshake (fun _ _ => "w") [] 2 ⟨some "w", some .machineScoped, none, none⟩ =
      some ⟨2, .machineScoped, none, none⟩ := by
  have h := (handshake_tokenOnly (fun _ _ => "w") [] 2
    ⟨some "w", some .machineScoped, none, none⟩).2 "w" rfl (by decide) (by decide)
  simpa using h

end Remcli
